import Mathlib

/-!
Shallow embedding of the scan-cycle boiler-controller logic of the
repository (four variants of the same state machine):

* `Fatek`  — `emulate_fatek.py`, class `FATEK_Emulator` (deterministic
  100 ms scan with TON timers);
* `Ctrl`   — `Controller.py`, class `BoilerController`;
* `Simp`   — `simple_boiler_test.py`, class `SimpleBoilerController`;
* `RealC`  — `boiler_controller_real.py`, class `BoilerController`
  (Modbus I/O stripped; wall-clock time is an explicit parameter).

Booleans are `Bool`, ADC counts are `Nat` (Python ints with `//`),
float-valued sensors of the simple/real variants are `ℚ`.  Conditionals
on booleans use `cond`, numeric comparisons are reflected with `decide`.
Each Python method becomes one Lean function on an explicit state record;
`scan_cycle` composes them in the source order.
-/

namespace Fatek

/-- TON timer record of `emulate_fatek.py` (`{'IN':…,'Q':…,'ET':…,'PT':…}`),
times in milliseconds. -/
structure Timer where
  tin : Bool
  q : Bool
  et : Nat
  pt : Nat
  deriving Repr, DecidableEq

/-- `timer_update`: TON semantics — while `IN` is held, `ET` accumulates `dt`
and `Q` latches once `ET ≥ PT`; dropping `IN` clears both. -/
def timer_update (t : Timer) (dt : Nat) : Timer :=
  cond t.tin
    (let et := t.et + dt
     { t with et := et, q := t.q || decide (et ≥ t.pt) })
    { t with et := 0, q := false }

/-- Inputs read by one `scan_cycle` of `FATEK_Emulator`: analog registers
(`AI_*`), discrete sensors (`DI_*`) and HMI commands (`CMD_*`). -/
structure Inputs where
  aiBoilerVoltage : Nat
  aiBoilerTemp : Nat
  aiWaterTemp : Nat
  aiTempSensor1 : Nat
  aiTempSensor2 : Nat
  aiOilPressure : Nat
  aiSteamPressure : Nat
  diGasSensor : Bool
  diVacuumSensor : Bool
  diOilPressureOK : Bool
  diSteamPressureOK : Bool
  diEmergencyStop : Bool
  diManualMode : Bool
  cmdSystemStart : Bool
  cmdSystemStop : Bool
  cmdSocket1On : Bool
  cmdSocket2On : Bool
  cmdResetAlarms : Bool
  deriving Repr, DecidableEq

/-- Persistent state of `FATEK_Emulator` (everything `reset_all` initialises
except the raw input images, which are modelled as `Inputs`). -/
structure State where
  doGasValve : Bool
  doSocket1 : Bool
  doSocket2 : Bool
  doWaterPump : Bool
  doOilPump : Bool
  doAlarmLight : Bool
  doPermitRun : Bool
  doFanVent : Bool
  stSystemRunning : Nat
  stGasAvailable : Nat
  stVacuumOK : Nat
  stAlarmCode : Nat
  almVoltageHigh : Bool
  almTempHigh : Bool
  almNoGas : Bool
  almNoVacuum : Bool
  almOilPressureLow : Bool
  almSteamPressureBad : Bool
  almEmergency : Bool
  almAnyAlarm : Bool
  sysEnabled : Bool
  sysRunning : Bool
  sysReady : Bool
  sysManualMode : Bool
  snsGasPresent : Bool
  snsVacuumPresent : Bool
  snsOilPressureOK : Bool
  snsSteamPressureOK : Bool
  phyVoltage : Nat
  phyBoilerTemp : Nat
  phyWaterTemp : Nat
  phyTemp1 : Nat
  phyTemp2 : Nat
  phyOilPressure : Nat
  phySteamPressure : Nat
  ffStartOld : Bool
  ffStopOld : Bool
  ffResetOld : Bool
  ffGasOld : Bool
  ffVacuumOld : Bool
  ffAlarmOld : Bool
  cntStarts : Nat
  cntStops : Nat
  cntAlarms : Nat
  cntGasFailures : Nat
  cntVacuumFailures : Nat
  cntRunTime : Nat
  tmrStartDelay : Timer
  tmrAlarmDelay : Timer
  tmrResetDelay : Timer
  tmrRunTimer : Timer
  scanCount : Nat
  deriving Repr, DecidableEq

/-- `reset_all`: every flag false, every counter zero, timers idle with the
source presets (3000/2000/1000/1000 ms). -/
def reset_all : State where
  doGasValve := false
  doSocket1 := false
  doSocket2 := false
  doWaterPump := false
  doOilPump := false
  doAlarmLight := false
  doPermitRun := false
  doFanVent := false
  stSystemRunning := 0
  stGasAvailable := 0
  stVacuumOK := 0
  stAlarmCode := 0
  almVoltageHigh := false
  almTempHigh := false
  almNoGas := false
  almNoVacuum := false
  almOilPressureLow := false
  almSteamPressureBad := false
  almEmergency := false
  almAnyAlarm := false
  sysEnabled := false
  sysRunning := false
  sysReady := false
  sysManualMode := false
  snsGasPresent := false
  snsVacuumPresent := false
  snsOilPressureOK := false
  snsSteamPressureOK := false
  phyVoltage := 0
  phyBoilerTemp := 0
  phyWaterTemp := 0
  phyTemp1 := 0
  phyTemp2 := 0
  phyOilPressure := 0
  phySteamPressure := 0
  ffStartOld := false
  ffStopOld := false
  ffResetOld := false
  ffGasOld := false
  ffVacuumOld := false
  ffAlarmOld := false
  cntStarts := 0
  cntStops := 0
  cntAlarms := 0
  cntGasFailures := 0
  cntVacuumFailures := 0
  cntRunTime := 0
  tmrStartDelay := ⟨false, false, 0, 3000⟩
  tmrAlarmDelay := ⟨false, false, 0, 2000⟩
  tmrResetDelay := ⟨false, false, 0, 1000⟩
  tmrRunTimer := ⟨false, false, 0, 1000⟩
  scanCount := 0

/-- Scan blocks 1–6: ADC conversion, discrete-sensor latch, the two
hysteresis alarms, the sensor-derived alarms and the general alarm
(`ALM_AnyAlarm`). -/
def blocks1to6 (s : State) (i : Inputs) : State :=
  -- БЛОК 1: ADC → physical units (integer //)
  let phyVoltage := i.aiBoilerVoltage * 500 / 4095
  let phyBoilerTemp := i.aiBoilerTemp * 150 / 4095
  let phyWaterTemp := i.aiWaterTemp * 150 / 4095
  let phyTemp1 := i.aiTempSensor1 * 150 / 4095
  let phyTemp2 := i.aiTempSensor2 * 150 / 4095
  let phyOilPressure := i.aiOilPressure * 100 / 4095
  let phySteamPressure := i.aiSteamPressure * 10 / 4095
  -- БЛОК 2: discrete sensor images
  let snsGas := i.diGasSensor
  let snsVacuum := i.diVacuumSensor
  let snsOil := i.diOilPressureOK
  let snsSteam := i.diSteamPressureOK
  -- БЛОК 3: voltage alarm with hysteresis (trip 400, reset 380)
  let almV := cond (decide (phyVoltage ≥ 400)) true
    (cond (decide (phyVoltage < 380)) false s.almVoltageHigh)
  -- БЛОК 4: temperature alarm with hysteresis (trip 80, reset 75)
  let almT := cond (decide (phyBoilerTemp ≥ 80)) true
    (cond (decide (phyBoilerTemp < 75)) false s.almTempHigh)
  -- БЛОК 5: binary-sensor alarms
  let almNoGas := !snsGas
  let almNoVacuum := !snsVacuum
  let almOilLow := !snsOil
  let almSteamBad := !snsSteam
  let almEmergency := i.diEmergencyStop
  -- БЛОК 6: general alarm
  let almAny := almV || almT || almNoGas || almNoVacuum ||
    almOilLow || almSteamBad || almEmergency
  { s with
    phyVoltage := phyVoltage, phyBoilerTemp := phyBoilerTemp
    phyWaterTemp := phyWaterTemp, phyTemp1 := phyTemp1, phyTemp2 := phyTemp2
    phyOilPressure := phyOilPressure, phySteamPressure := phySteamPressure
    snsGasPresent := snsGas, snsVacuumPresent := snsVacuum
    snsOilPressureOK := snsOil, snsSteamPressureOK := snsSteam
    sysManualMode := i.diManualMode
    almVoltageHigh := almV, almTempHigh := almT
    almNoGas := almNoGas, almNoVacuum := almNoVacuum
    almOilPressureLow := almOilLow, almSteamPressureBad := almSteamBad
    almEmergency := almEmergency, almAnyAlarm := almAny }

/-- Scan block 7: start/stop arbitration.  The start rising edge only arms
`SYS_Enabled` and the 3 s start delay timer; `FF_StartOld`/`FF_StopOld` are
overwritten immediately after their own comparison.  An active alarm clears
`SYS_Enabled`/`SYS_Running`, and then — unconditionally, without rechecking
`SYS_Enabled` or the alarm — an elapsed start-delay timer (`Q`) sets
`SYS_Running` and bumps `CNT_Starts`. -/
def block7 (s : State) (i : Inputs) : State :=
  let startFire := i.cmdSystemStart && !s.ffStartOld &&
    (!s.sysRunning && !s.almAnyAlarm)
  let enabled1 := cond startFire true s.sysEnabled
  let startTimerIn1 := cond startFire true s.tmrStartDelay.tin
  let ffStartOld := i.cmdSystemStart
  let stopFire := i.cmdSystemStop && !s.ffStopOld
  let enabled2 := cond stopFire false enabled1
  let running1 := cond stopFire false s.sysRunning
  let ffStopOld := i.cmdSystemStop
  let enabled3 := cond s.almAnyAlarm false enabled2
  let running2 := cond s.almAnyAlarm false running1
  let fireRun := s.tmrStartDelay.q
  let running3 := cond fireRun true running2
  let startTimerIn2 := cond fireRun false startTimerIn1
  let cntStarts := cond fireRun (s.cntStarts + 1) s.cntStarts
  { s with
    sysEnabled := enabled3, sysRunning := running3
    ffStartOld := ffStartOld, ffStopOld := ffStopOld
    tmrStartDelay := { s.tmrStartDelay with tin := startTimerIn2 }
    cntStarts := cntStarts }

/-- Scan blocks 8–12: readiness, gas valve (with the vacuum override as the
final write), sockets, pumps, indication and the alarm code. -/
def blocks8to12 (s : State) (i : Inputs) : State :=
  -- БЛОК 8: readiness
  let ready := !s.almVoltageHigh && !s.almTempHigh &&
    s.snsGasPresent && s.snsVacuumPresent &&
    s.snsOilPressureOK && s.snsSteamPressureOK &&
    !s.almEmergency && s.sysRunning
  -- БЛОК 9: gas valve, then the unconditional vacuum override
  let valve1 := cond ready true false
  let valve2 := cond (!s.snsVacuumPresent) false valve1
  -- БЛОК 10: sockets
  let socket1 := i.cmdSocket1On && !s.almAnyAlarm
  let socket2 := i.cmdSocket2On && !s.almAnyAlarm
  -- БЛОК 11: pumps and ventilation
  let waterPump := ready && decide (s.phyWaterTemp > 20)
  let oilPump := ready && s.snsOilPressureOK
  let fanVent := s.sysRunning
  -- БЛОК 12: indication
  let alarmCode :=
    cond s.almVoltageHigh 1 (cond s.almTempHigh 2 (cond s.almNoGas 3
      (cond s.almNoVacuum 4 (cond s.almOilPressureLow 5
        (cond s.almSteamPressureBad 6 (cond s.almEmergency 7 0))))))
  { s with
    sysReady := ready
    doGasValve := valve2
    doSocket1 := socket1, doSocket2 := socket2
    doWaterPump := waterPump, doOilPump := oilPump, doFanVent := fanVent
    doAlarmLight := s.almAnyAlarm, doPermitRun := ready
    stSystemRunning := cond s.sysRunning 1 0
    stGasAvailable := cond s.snsGasPresent 1 0
    stVacuumOK := cond s.snsVacuumPresent 1 0
    stAlarmCode := alarmCode }

/-- Scan block 13 (statistics).  `oldAlarm` is the pre-cycle value of
`ALM_AnyAlarm` captured in block 6.  Note that the stop-edge test reads the
state's `FF_StopOld`, which block 7 already overwrote this cycle, and that
`SYS_Running` was already cleared by block 7 when the alarm rose. -/
def block13 (s : State) (i : Inputs) (oldAlarm : Bool) : State :=
  let cntAlarms := cond (s.almAnyAlarm && !s.ffAlarmOld)
    (s.cntAlarms + 1) s.cntAlarms
  let ffAlarmOld := s.almAnyAlarm
  let cntGasFailures := cond (!s.snsGasPresent && s.ffGasOld)
    (s.cntGasFailures + 1) s.cntGasFailures
  let ffGasOld := s.snsGasPresent
  let cntVacuumFailures := cond (!s.snsVacuumPresent && s.ffVacuumOld)
    (s.cntVacuumFailures + 1) s.cntVacuumFailures
  let ffVacuumOld := s.snsVacuumPresent
  let stopEvent := (i.cmdSystemStop && !s.ffStopOld) ||
    (s.almAnyAlarm && !oldAlarm)
  let cntStops := cond (stopEvent && s.sysRunning) (s.cntStops + 1) s.cntStops
  let runTimerIn1 := s.sysRunning
  let cntRunTime := cond s.tmrRunTimer.q (s.cntRunTime + 1) s.cntRunTime
  let runTimerIn2 := cond s.tmrRunTimer.q true runTimerIn1
  { s with
    cntAlarms := cntAlarms, ffAlarmOld := ffAlarmOld
    cntGasFailures := cntGasFailures, ffGasOld := ffGasOld
    cntVacuumFailures := cntVacuumFailures, ffVacuumOld := ffVacuumOld
    cntStops := cntStops, cntRunTime := cntRunTime
    tmrRunTimer := { s.tmrRunTimer with tin := runTimerIn2 } }

/-- Scan block 14 (alarm reset via the 1 s reset-delay timer) followed by the
end-of-cycle `timer_update` calls and the scan counter. -/
def block14 (s : State) (i : Inputs) : State :=
  let resetFire := i.cmdResetAlarms && !s.ffResetOld
  let resetTimerIn1 := cond resetFire true s.tmrResetDelay.tin
  let ffResetOld := i.cmdResetAlarms
  let doReset := s.tmrResetDelay.q
  let clearOk := !s.almVoltageHigh && !s.almTempHigh && !s.almEmergency
  let almNoGas := cond (doReset && clearOk) false s.almNoGas
  let almNoVacuum := cond (doReset && clearOk) false s.almNoVacuum
  let almOilLow := cond (doReset && clearOk) false s.almOilPressureLow
  let almSteamBad := cond (doReset && clearOk) false s.almSteamPressureBad
  let resetTimerIn2 := cond doReset false resetTimerIn1
  let dt := 100
  { s with
    ffResetOld := ffResetOld
    almNoGas := almNoGas, almNoVacuum := almNoVacuum
    almOilPressureLow := almOilLow, almSteamPressureBad := almSteamBad
    tmrStartDelay := timer_update s.tmrStartDelay dt
    tmrAlarmDelay := timer_update s.tmrAlarmDelay dt
    tmrResetDelay := timer_update { s.tmrResetDelay with tin := resetTimerIn2 } dt
    tmrRunTimer := timer_update s.tmrRunTimer dt
    scanCount := s.scanCount + 1 }

/-- One `scan_cycle` of `FATEK_Emulator`: blocks 1–14 in source order.
`s.almAnyAlarm` passed to `block13` is the Python local `old_alarm`
captured just before block 6 recomputes the general alarm. -/
def scan_cycle (s : State) (i : Inputs) : State :=
  let s6 := blocks1to6 s i
  let s7 := block7 s6 i
  let s12 := blocks8to12 s7 i
  let s13 := block13 s12 i s.almAnyAlarm
  block14 s13 i

/-- Iterated scan from `reset_all` under an input schedule (one `Inputs`
record per cycle). -/
def run (f : Nat → Inputs) : Nat → State
  | 0 => reset_all
  | n + 1 => scan_cycle (run f n) (f n)

/-- Healthy inputs: the `reset_all` analog presets (≈305 V, ≈54 °C), all
binary sensors good, no commands. -/
def goodInp : Inputs where
  aiBoilerVoltage := 2500
  aiBoilerTemp := 1500
  aiWaterTemp := 1000
  aiTempSensor1 := 1200
  aiTempSensor2 := 1100
  aiOilPressure := 3000
  aiSteamPressure := 2000
  diGasSensor := true
  diVacuumSensor := true
  diOilPressureOK := true
  diSteamPressureOK := true
  diEmergencyStop := false
  diManualMode := false
  cmdSystemStart := false
  cmdSystemStop := false
  cmdSocket1On := false
  cmdSocket2On := false
  cmdResetAlarms := false

/-- Healthy inputs with the start command pressed. -/
def startInp : Inputs := { goodInp with cmdSystemStart := true }

/-- Healthy inputs except the gas sensor reads false. -/
def gasLostInp : Inputs := { goodInp with diGasSensor := false }

/-- Schedule for the alarm-during-timer scenario: start pulse in cycle 0,
healthy sensors for cycles 1–29 (the 3 s = 30-cycle start delay), gas lost
from cycle 30 on. -/
def c2seq (n : Nat) : Inputs :=
  if n = 0 then startInp else if n < 30 then goodInp else gasLostInp

/-- Schedule for the stop-counter scenario: start pulse in cycle 0, healthy
sensors through cycle 30 (so the delay elapses and the system runs), gas
lost from cycle 31 on. -/
def c5seq (n : Nat) : Inputs :=
  if n = 0 then startInp else if n < 31 then goodInp else gasLostInp

/-- Healthy inputs with the stop command pressed. -/
def stopInp : Inputs := { goodInp with cmdSystemStop := true }

end Fatek

namespace Ctrl

/-- Inputs read by one `scan_cycle` of `Controller.py`'s `BoilerController`:
the clamped analog-input values (`AI_*`, 0…4095), the discrete sensors
(`X_*`) and the HMI commands (`CMD_*`).  `AI_TISK_MASLA` exists in the
source but is never read by the scan; it is omitted. -/
structure Inputs where
  aiNapruga : Nat
  aiTempBoiler : Nat
  aiTempVoda : Nat
  aiTemp2 : Nat
  xGaz : Bool
  xVakuum : Bool
  xTiskMaslaDI : Bool
  xAvariaExt : Bool
  cmdRozet1 : Bool
  cmdRozet2 : Bool
  cmdStart : Bool
  cmdStop : Bool
  deriving Repr, DecidableEq

/-- Persistent state of `Controller.py`'s `BoilerController`: internal
markers `M_*`, physical values, outputs `Y_*`, the `stats` dictionary, the
scan counter and the scan-loop flag (`self.running`). -/
structure State where
  mAvariaNapruga : Bool
  mAvariaTemp : Bool
  mGazIe : Bool
  mVakuumIe : Bool
  mTiskNorma : Bool
  mAvariaVakuum : Bool
  mSystemReady : Bool
  mZagalnaAvaria : Bool
  mSystemOn : Bool
  naprugaVolt : Nat
  tempBoilerGrad : Nat
  tempVodaGrad : Nat
  temp2Grad : Nat
  yKlapanGaz : Bool
  yRozet1 : Bool
  yRozet2 : Bool
  yAvariaSignal : Bool
  yDozvRoboty : Bool
  statsStarts : Nat
  statsStops : Nat
  statsAlarms : Nat
  statsGasOff : Nat
  statsVakuumOff : Nat
  scanCount : Nat
  runningLoop : Bool
  deriving Repr, DecidableEq

/-- `__init__`: all markers false, all outputs false, counters zero. -/
def initState : State where
  mAvariaNapruga := false
  mAvariaTemp := false
  mGazIe := false
  mVakuumIe := false
  mTiskNorma := false
  mAvariaVakuum := false
  mSystemReady := false
  mZagalnaAvaria := false
  mSystemOn := false
  naprugaVolt := 0
  tempBoilerGrad := 0
  tempVodaGrad := 0
  temp2Grad := 0
  yKlapanGaz := false
  yRozet1 := false
  yRozet2 := false
  yAvariaSignal := false
  yDozvRoboty := false
  statsStarts := 0
  statsStops := 0
  statsAlarms := 0
  statsGasOff := 0
  statsVakuumOff := 0
  scanCount := 0
  runningLoop := false

/-- `_update_physical_values`: `adc_to_physical` is `value * max // 4095`. -/
def update_physical_values (s : State) (i : Inputs) : State :=
  { s with
    naprugaVolt := i.aiNapruga * 500 / 4095
    tempBoilerGrad := i.aiTempBoiler * 150 / 4095
    tempVodaGrad := i.aiTempVoda * 150 / 4095
    temp2Grad := i.aiTemp2 * 150 / 4095 }

/-- `_check_voltage_alarm`: set at ≥ 400 V; the else-branch clears only when
the value is < 380 V *and* the flag was set. -/
def check_voltage_alarm (s : State) : State :=
  { s with
    mAvariaNapruga :=
      cond (decide (s.naprugaVolt ≥ 400)) true
        (cond (decide (s.naprugaVolt < 380) && s.mAvariaNapruga) false
          s.mAvariaNapruga) }

/-- `_check_temperature_alarm`: same shape with trip 80 °C, reset 75 °C. -/
def check_temperature_alarm (s : State) : State :=
  { s with
    mAvariaTemp :=
      cond (decide (s.tempBoilerGrad ≥ 80)) true
        (cond (decide (s.tempBoilerGrad < 75) && s.mAvariaTemp) false
          s.mAvariaTemp) }

/-- `_check_gas_and_vakuum`: latch both sensors; on a change count falling
edges, and (vacuum only) move `M_AVARIA_VAKUUM` to the negated new value. -/
def check_gas_and_vakuum (s : State) (i : Inputs) : State :=
  let gazChanged := s.mGazIe != i.xGaz
  let statsGasOff := cond (gazChanged && !i.xGaz) (s.statsGasOff + 1)
    s.statsGasOff
  let vakChanged := s.mVakuumIe != i.xVakuum
  let statsVakuumOff := cond (vakChanged && !i.xVakuum) (s.statsVakuumOff + 1)
    s.statsVakuumOff
  let mAvariaVakuum := cond vakChanged (!i.xVakuum) s.mAvariaVakuum
  { s with
    mGazIe := i.xGaz, statsGasOff := statsGasOff
    mVakuumIe := i.xVakuum, statsVakuumOff := statsVakuumOff
    mAvariaVakuum := mAvariaVakuum }

/-- `_check_oil_pressure`: latch the discrete oil-pressure input. -/
def check_oil_pressure (s : State) (i : Inputs) : State :=
  { s with mTiskNorma := i.xTiskMaslaDI }

/-- `_update_general_alarm`: OR of voltage, temperature and vacuum alarms,
oil pressure not normal and the live external-emergency input; the alarm
counter is bumped on a rising edge.  The gas sensor does not appear. -/
def update_general_alarm (s : State) (i : Inputs) : State :=
  let zag := s.mAvariaNapruga || s.mAvariaTemp || s.mAvariaVakuum ||
    !s.mTiskNorma || i.xAvariaExt
  let statsAlarms := cond ((s.mZagalnaAvaria != zag) && zag)
    (s.statsAlarms + 1) s.statsAlarms
  { s with mZagalnaAvaria := zag, statsAlarms := statsAlarms }

/-- `_handle_start_stop`: level-triggered — start fires whenever the command
is held, the system is off and there is no general alarm; then stop (command
or alarm) forces the system off within the same call. -/
def handle_start_stop (s : State) (i : Inputs) : State :=
  let startFire := i.cmdStart && !s.mSystemOn && !s.mZagalnaAvaria
  let on1 := cond startFire true s.mSystemOn
  let statsStarts := cond startFire (s.statsStarts + 1) s.statsStarts
  let stopFire := (i.cmdStop || s.mZagalnaAvaria) && on1
  let on2 := cond stopFire false on1
  let statsStops := cond stopFire (s.statsStops + 1) s.statsStops
  { s with
    mSystemOn := on2
    statsStarts := statsStarts
    statsStops := statsStops }

/-- `_update_system_ready`: the seven-term readiness conjunction. -/
def update_system_ready (s : State) (i : Inputs) : State :=
  { s with
    mSystemReady := !s.mAvariaNapruga && !s.mAvariaTemp &&
      s.mGazIe && s.mVakuumIe && s.mTiskNorma &&
      !i.xAvariaExt && s.mSystemOn }

/-- `_control_gas_valve`: `should_open = ready`, then the vacuum override is
applied before the single write to `Y_KLAPAN_GAZ`. -/
def control_gas_valve (s : State) : State :=
  let shouldOpen1 := s.mSystemReady
  let shouldOpen2 := cond (!s.mVakuumIe) false shouldOpen1
  { s with yKlapanGaz := shouldOpen2 }

/-- `_control_sockets`: each socket is its command AND no general alarm. -/
def control_sockets (s : State) (i : Inputs) : State :=
  { s with
    yRozet1 := i.cmdRozet1 && !s.mZagalnaAvaria
    yRozet2 := i.cmdRozet2 && !s.mZagalnaAvaria }

/-- `_control_alarm_signal` and `_control_operation_permit`. -/
def control_indicators (s : State) : State :=
  { s with yAvariaSignal := s.mZagalnaAvaria, yDozvRoboty := s.mSystemReady }

/-- One `scan_cycle` of `Controller.py`, blocks 1–12 in source order plus the
scan counter. -/
def scan_cycle (s : State) (i : Inputs) : State :=
  let s1 := update_physical_values s i
  let s2 := check_temperature_alarm (check_voltage_alarm s1)
  let s3 := check_oil_pressure (check_gas_and_vakuum s2 i) i
  let s4 := update_general_alarm s3 i
  let s5 := handle_start_stop s4 i
  let s6 := update_system_ready s5 i
  let s7 := control_indicators (control_sockets (control_gas_valve s6) i)
  { s7 with scanCount := s7.scanCount + 1 }

/-- `stop` of `Controller.py`: clears the scan-loop flag and joins the
thread; no output is written. -/
def stop (s : State) : State :=
  { s with runningLoop := false }

/-- Iterated scan from `initState` under an input schedule. -/
def run (f : Nat → Inputs) : Nat → State
  | 0 => initState
  | n + 1 => scan_cycle (run f n) (f n)

/-- Healthy inputs (≈305 V, ≈54 °C, all sensors good, no commands). -/
def goodInp : Inputs where
  aiNapruga := 2500
  aiTempBoiler := 1500
  aiTempVoda := 1000
  aiTemp2 := 800
  xGaz := true
  xVakuum := true
  xTiskMaslaDI := true
  xAvariaExt := false
  cmdRozet1 := false
  cmdRozet2 := false
  cmdStart := false
  cmdStop := false

/-- Schedule holding the start command continuously true, with the stop
command pressed only in cycle 1. -/
def heldStartSeq (n : Nat) : Inputs :=
  if n = 1 then { goodInp with cmdStart := true, cmdStop := true }
  else { goodInp with cmdStart := true }

end Ctrl

namespace Simp

/-- Inputs of one `scan_cycle` of `SimpleBoilerController`: the sensor and
command attributes the cycle reads (they are plain attributes mutated by the
test harness between cycles). -/
structure Inputs where
  voltage : ℚ
  boilerTemp : ℚ
  waterTemp : ℚ
  gasPresent : Bool
  vacuumPresent : Bool
  oilPressureOk : Bool
  steamPressureOk : Bool
  emergencyStop : Bool
  cmdStart : Bool
  cmdStop : Bool
  cmdSocket1 : Bool
  cmdSocket2 : Bool
  deriving Repr, DecidableEq

/-- Persistent state of `SimpleBoilerController`: outputs, alarm flags, run
state, statistics, edge shadows and the control-loop flag (`self.running`). -/
structure State where
  gasValve : Bool
  socket1 : Bool
  socket2 : Bool
  waterPump : Bool
  oilPump : Bool
  alarmLight : Bool
  almVoltageHigh : Bool
  almTempHigh : Bool
  almNoGas : Bool
  almNoVacuum : Bool
  almOilPressureLow : Bool
  almSteamPressureBad : Bool
  almAnyAlarm : Bool
  systemRunning : Bool
  systemReady : Bool
  statsStarts : Nat
  statsStops : Nat
  statsAlarms : Nat
  statsGasFailures : Nat
  statsVacuumFailures : Nat
  startOld : Bool
  gasOld : Bool
  vacuumOld : Bool
  alarmOld : Bool
  runningLoop : Bool
  deriving Repr, DecidableEq

/-- `__init__`: everything false / zero. -/
def initState : State where
  gasValve := false
  socket1 := false
  socket2 := false
  waterPump := false
  oilPump := false
  alarmLight := false
  almVoltageHigh := false
  almTempHigh := false
  almNoGas := false
  almNoVacuum := false
  almOilPressureLow := false
  almSteamPressureBad := false
  almAnyAlarm := false
  systemRunning := false
  systemReady := false
  statsStarts := 0
  statsStops := 0
  statsAlarms := 0
  statsGasFailures := 0
  statsVacuumFailures := 0
  startOld := false
  gasOld := false
  vacuumOld := false
  alarmOld := false
  runningLoop := false

/-- `check_alarms`: voltage/temperature hysteresis (400/380, 80/75), the
four binary-sensor alarms, the any-alarm OR (including the live emergency
input) and the rising-edge alarm counter. -/
def check_alarms (s : State) (i : Inputs) : State :=
  let almV := cond (decide (i.voltage ≥ 400)) true
    (cond (decide (i.voltage < 380)) false s.almVoltageHigh)
  let almT := cond (decide (i.boilerTemp ≥ 80)) true
    (cond (decide (i.boilerTemp < 75)) false s.almTempHigh)
  let almNoGas := !i.gasPresent
  let almNoVacuum := !i.vacuumPresent
  let almOilLow := !i.oilPressureOk
  let almSteamBad := !i.steamPressureOk
  let almAny := almV || almT || almNoGas || almNoVacuum ||
    almOilLow || almSteamBad || i.emergencyStop
  let statsAlarms := cond (almAny && !s.almAnyAlarm) (s.statsAlarms + 1)
    s.statsAlarms
  { s with
    almVoltageHigh := almV, almTempHigh := almT
    almNoGas := almNoGas, almNoVacuum := almNoVacuum
    almOilPressureLow := almOilLow, almSteamPressureBad := almSteamBad
    almAnyAlarm := almAny, statsAlarms := statsAlarms }

/-- `handle_start_stop`: edge-triggered start (command AND NOT `start_old`)
guarded by not-running and no-alarm; level stop (command OR alarm) counted
once per transition out of running; `start_old` updated last. -/
def handle_start_stop (s : State) (i : Inputs) : State :=
  let startFire := i.cmdStart && !s.startOld &&
    (!s.systemRunning && !s.almAnyAlarm)
  let running1 := cond startFire true s.systemRunning
  let statsStarts := cond startFire (s.statsStarts + 1) s.statsStarts
  let stopFire := (i.cmdStop || s.almAnyAlarm) && running1
  let running2 := cond stopFire false running1
  let statsStops := cond stopFire (s.statsStops + 1) s.statsStops
  { s with
    systemRunning := running2
    statsStarts := statsStarts
    statsStops := statsStops
    startOld := i.cmdStart }

/-- `update_ready`: the readiness conjunction of the simple variant, which
also requires `steam_pressure_ok`. -/
def update_ready (s : State) (i : Inputs) : State :=
  { s with
    systemReady := !s.almVoltageHigh && !s.almTempHigh &&
      i.gasPresent && i.vacuumPresent && i.oilPressureOk &&
      i.steamPressureOk && !i.emergencyStop && s.systemRunning }

/-- `control_outputs`: valve from readiness then the vacuum override as the
final write, sockets gated by the alarm, pumps, alarm lamp. -/
def control_outputs (s : State) (i : Inputs) : State :=
  let valve1 := cond s.systemReady true false
  let valve2 := cond (!i.vacuumPresent) false valve1
  { s with
    gasValve := valve2
    socket1 := i.cmdSocket1 && !s.almAnyAlarm
    socket2 := i.cmdSocket2 && !s.almAnyAlarm
    waterPump := s.systemReady && decide (i.waterTemp > 20)
    oilPump := s.systemReady && i.oilPressureOk
    alarmLight := s.almAnyAlarm }

/-- `update_statistics`: falling-edge failure counters against the shadow
values, which are all refreshed afterwards. -/
def update_statistics (s : State) (i : Inputs) : State :=
  let statsGasFailures := cond (!i.gasPresent && s.gasOld)
    (s.statsGasFailures + 1) s.statsGasFailures
  let statsVacuumFailures := cond (!i.vacuumPresent && s.vacuumOld)
    (s.statsVacuumFailures + 1) s.statsVacuumFailures
  { s with
    statsGasFailures := statsGasFailures
    statsVacuumFailures := statsVacuumFailures
    gasOld := i.gasPresent
    vacuumOld := i.vacuumPresent
    alarmOld := s.almAnyAlarm }

/-- One `scan_cycle` of `SimpleBoilerController` in source order. -/
def scan_cycle (s : State) (i : Inputs) : State :=
  let s1 := check_alarms s i
  let s2 := handle_start_stop s1 i
  let s3 := update_ready s2 i
  let s4 := control_outputs s3 i
  update_statistics s4 i

/-- `stop` of `SimpleBoilerController`: if the loop is active, stop it and
force all six outputs off; otherwise return immediately. -/
def stop (s : State) : State :=
  cond (!s.runningLoop) s
    { s with
      runningLoop := false
      gasValve := false
      socket1 := false
      socket2 := false
      waterPump := false
      oilPump := false
      alarmLight := false }

end Simp

namespace RealC

/-- The `self.sensors` dictionary of `boiler_controller_real.py` after
`read_sensors` has converted the Modbus registers to physical units. -/
structure Sensors where
  voltage : ℚ
  boilerTemp : ℚ
  waterTemp : ℚ
  temp1 : ℚ
  temp2 : ℚ
  oilPressure : ℚ
  steamPressure : ℚ
  gasPresent : Bool
  vacuumPresent : Bool
  oilPressureOk : Bool
  steamPressureOk : Bool
  emergencyStop : Bool
  manualMode : Bool
  deriving Repr, DecidableEq

/-- The `self.commands` dictionary read from the HMI coils. -/
structure Commands where
  start : Bool
  stop : Bool
  socket1 : Bool
  socket2 : Bool
  reset : Bool
  deriving Repr, DecidableEq

/-- Persistent state of the Modbus-backed `BoilerController` (the transport
layer is external; `time.time()` is passed in as a rational parameter). -/
structure State where
  sensors : Sensors
  commands : Commands
  outGasValve : Bool
  outSocket1 : Bool
  outSocket2 : Bool
  outWaterPump : Bool
  outOilPump : Bool
  outAlarmLight : Bool
  outPermitRun : Bool
  outFanVent : Bool
  almVoltageHigh : Bool
  almTempHigh : Bool
  almNoGas : Bool
  almNoVacuum : Bool
  almOilPressureLow : Bool
  almSteamPressureBad : Bool
  almEmergency : Bool
  almAnyAlarm : Bool
  sysEnabled : Bool
  sysRunning : Bool
  sysReady : Bool
  sysStable : Bool
  statsStarts : Nat
  statsStops : Nat
  statsAlarms : Nat
  statsGasFailures : Nat
  statsVacuumFailures : Nat
  statsRuntime : Nat
  statsLastStartTime : Option ℚ
  tmrStartupDelay : ℚ
  tmrGasValveDelay : ℚ
  tmrEmergencyDelay : ℚ
  tmrWatchdog : ℚ
  edgeStartOld : Bool
  edgeStopOld : Bool
  edgeGasOld : Bool
  edgeVacuumOld : Bool
  edgeAlarmOld : Bool
  filtersVoltage : List ℚ
  filtersTemperature : List ℚ
  runningLoop : Bool
  deriving Repr, DecidableEq

/-- `__init__`: all flags false, counters zero, timers zero, filters empty. -/
def initState : State where
  sensors := ⟨0, 0, 0, 0, 0, 0, 0, false, false, false, false, false, false⟩
  commands := ⟨false, false, false, false, false⟩
  outGasValve := false
  outSocket1 := false
  outSocket2 := false
  outWaterPump := false
  outOilPump := false
  outAlarmLight := false
  outPermitRun := false
  outFanVent := false
  almVoltageHigh := false
  almTempHigh := false
  almNoGas := false
  almNoVacuum := false
  almOilPressureLow := false
  almSteamPressureBad := false
  almEmergency := false
  almAnyAlarm := false
  sysEnabled := false
  sysRunning := false
  sysReady := false
  sysStable := false
  statsStarts := 0
  statsStops := 0
  statsAlarms := 0
  statsGasFailures := 0
  statsVacuumFailures := 0
  statsRuntime := 0
  statsLastStartTime := none
  tmrStartupDelay := 0
  tmrGasValveDelay := 0
  tmrEmergencyDelay := 0
  tmrWatchdog := 0
  edgeStartOld := false
  edgeStopOld := false
  edgeGasOld := false
  edgeVacuumOld := false
  edgeAlarmOld := false
  filtersVoltage := []
  filtersTemperature := []
  runningLoop := false

/-- `apply_filters`: append the fresh reading, drop the oldest beyond a
window of 5, and replace the stored value by the window average. -/
def apply_filters (s : State) : State :=
  let fv0 := s.filtersVoltage ++ [s.sensors.voltage]
  let fv := cond (decide (fv0.length > 5)) fv0.tail fv0
  let v := cond (decide (fv.length > 0)) (fv.sum / (fv.length : ℚ))
    s.sensors.voltage
  let ft0 := s.filtersTemperature ++ [s.sensors.boilerTemp]
  let ft := cond (decide (ft0.length > 5)) ft0.tail ft0
  let bt := cond (decide (ft.length > 0)) (ft.sum / (ft.length : ℚ))
    s.sensors.boilerTemp
  { s with
    filtersVoltage := fv
    filtersTemperature := ft
    sensors := { s.sensors with voltage := v, boilerTemp := bt } }

/-- `check_alarms` of the real variant: voltage/temperature hysteresis
(trip 400/reset 380, trip 80/reset 75), the five sensor-derived alarms, the
any-alarm OR and the rising-edge alarm counter. -/
def check_alarms (s : State) : State :=
  let almV := cond (decide (s.sensors.voltage ≥ 400)) true
    (cond (decide (s.sensors.voltage < 380)) false s.almVoltageHigh)
  let almT := cond (decide (s.sensors.boilerTemp ≥ 80)) true
    (cond (decide (s.sensors.boilerTemp < 75)) false s.almTempHigh)
  let almNoGas := !s.sensors.gasPresent
  let almNoVacuum := !s.sensors.vacuumPresent
  let almOilLow := !s.sensors.oilPressureOk
  let almSteamBad := !s.sensors.steamPressureOk
  let almEmergency := s.sensors.emergencyStop
  let almAny := almV || almT || almNoGas || almNoVacuum ||
    almOilLow || almSteamBad || almEmergency
  let statsAlarms := cond (almAny && !s.almAnyAlarm) (s.statsAlarms + 1)
    s.statsAlarms
  { s with
    almVoltageHigh := almV, almTempHigh := almT
    almNoGas := almNoGas, almNoVacuum := almNoVacuum
    almOilPressureLow := almOilLow, almSteamPressureBad := almSteamBad
    almEmergency := almEmergency, almAnyAlarm := almAny
    statsAlarms := statsAlarms }

/-- `handle_start_stop_logic`: a start rising edge (guarded by not-running
and no-alarm) arms `enabled` and sets the 3 s startup deadline; a stop
rising edge clears both run flags; the shadows are refreshed; an active
alarm then clears both run flags; finally, if still enabled with the
deadline passed and not yet running, `running` is set and the start is
counted. -/
def handle_start_stop_logic (s : State) (t : ℚ) : State :=
  let startEdge := s.commands.start && !s.edgeStartOld
  let startFire := startEdge && (!s.sysRunning && !s.almAnyAlarm)
  let enabled1 := cond startFire true s.sysEnabled
  let startupDelay := cond startFire (t + 3) s.tmrStartupDelay
  let stopEdge := s.commands.stop && !s.edgeStopOld
  let enabled2 := cond stopEdge false enabled1
  let running1 := cond stopEdge false s.sysRunning
  let enabled3 := cond s.almAnyAlarm false enabled2
  let running2 := cond s.almAnyAlarm false running1
  let fireRun := enabled3 && decide (t ≥ startupDelay) && !running2
  let running3 := cond fireRun true running2
  let statsStarts := cond fireRun (s.statsStarts + 1) s.statsStarts
  let lastStart := cond fireRun (some t) s.statsLastStartTime
  { s with
    sysEnabled := enabled3
    sysRunning := running3
    tmrStartupDelay := startupDelay
    edgeStartOld := s.commands.start
    edgeStopOld := s.commands.stop
    statsStarts := statsStarts
    statsLastStartTime := lastStart }

/-- `update_system_ready`: the readiness conjunction of the real variant,
which also requires `steam_pressure_ok`. -/
def update_system_ready (s : State) : State :=
  { s with
    sysReady := !s.almVoltageHigh && !s.almTempHigh &&
      s.sensors.gasPresent && s.sensors.vacuumPresent &&
      s.sensors.oilPressureOk && s.sensors.steamPressureOk &&
      !s.sensors.emergencyStop && s.sysRunning }

/-- `control_gas_valve`: when ready, open only once the 2 s valve deadline
has passed (otherwise the output keeps its previous value); when not ready,
close and re-arm the deadline.  The vacuum override is the final write. -/
def control_gas_valve (s : State) (t : ℚ) : State :=
  let valve1 := cond s.sysReady
    (cond (decide (t ≥ s.tmrGasValveDelay)) true s.outGasValve)
    false
  let gasValveDelay := cond s.sysReady s.tmrGasValveDelay (t + 2)
  let valve2 := cond (!s.sensors.vacuumPresent) false valve1
  { s with outGasValve := valve2, tmrGasValveDelay := gasValveDelay }

/-- `control_sockets`: each socket is its command AND no alarm. -/
def control_sockets (s : State) : State :=
  { s with
    outSocket1 := s.commands.socket1 && !s.almAnyAlarm
    outSocket2 := s.commands.socket2 && !s.almAnyAlarm }

/-- `control_pumps`: water pump above 20 units when ready, oil pump when
ready with oil pressure, ventilation while running. -/
def control_pumps (s : State) : State :=
  { s with
    outWaterPump := s.sysReady && decide (s.sensors.waterTemp > 20)
    outOilPump := s.sysReady && s.sensors.oilPressureOk
    outFanVent := s.sysRunning }

/-- `update_indicators`: alarm lamp mirrors the alarm, permit mirrors
readiness. -/
def update_indicators (s : State) : State :=
  { s with outAlarmLight := s.almAnyAlarm, outPermitRun := s.sysReady }

/-- `update_statistics`: falling-edge failure counters against the shadows,
then all three shadows refreshed, then the runtime counter. -/
def update_statistics (s : State) : State :=
  let statsGasFailures := cond (!s.sensors.gasPresent && s.edgeGasOld)
    (s.statsGasFailures + 1) s.statsGasFailures
  let statsVacuumFailures := cond (!s.sensors.vacuumPresent && s.edgeVacuumOld)
    (s.statsVacuumFailures + 1) s.statsVacuumFailures
  { s with
    statsGasFailures := statsGasFailures
    statsVacuumFailures := statsVacuumFailures
    edgeGasOld := s.sensors.gasPresent
    edgeVacuumOld := s.sensors.vacuumPresent
    edgeAlarmOld := s.almAnyAlarm
    statsRuntime := cond s.sysRunning (s.statsRuntime + 1) s.statsRuntime }

/-- The logic portion of one `scan_cycle`: take the freshly read sensor and
command snapshots (Modbus transport is external), then filters, alarms,
start/stop, readiness and output control in source order.  `t` is the value
of `time.time()` during the cycle. -/
def scan_logic (s : State) (sens : Sensors) (cmds : Commands) (t : ℚ) :
    State :=
  let s0 := { s with sensors := sens, commands := cmds }
  let s1 := apply_filters s0
  let s2 := check_alarms s1
  let s3 := handle_start_stop_logic s2 t
  let s4 := update_system_ready s3
  let s5 := control_gas_valve s4 t
  let s6 := control_pumps (control_sockets s5)
  update_statistics (update_indicators s6)

/-- `stop` of the real controller: if active, halt the loop and force every
output false before the final `write_outputs`; if already stopped, return
without touching anything. -/
def stop (s : State) : State :=
  cond (!s.runningLoop) s
    { s with
      runningLoop := false
      outGasValve := false
      outSocket1 := false
      outSocket2 := false
      outWaterPump := false
      outOilPump := false
      outAlarmLight := false
      outPermitRun := false
      outFanVent := false }

/-- Healthy sensor snapshot for tests. -/
def goodSens : Sensors where
  voltage := 305
  boilerTemp := 54
  waterTemp := 37
  temp1 := 44
  temp2 := 40
  oilPressure := 73
  steamPressure := 5
  gasPresent := true
  vacuumPresent := true
  oilPressureOk := true
  steamPressureOk := true
  emergencyStop := false
  manualMode := false

/-- No commands asserted. -/
def noCmds : Commands := ⟨false, false, false, false, false⟩

end RealC

/-!
Theorems about the claims.
-/

/-- Moving the last factor of a seven-fold conjunction to the front. -/
theorem bool_shift7 (a b c d e f g : Bool) :
    (a && b && c && d && e && f && g) = (g && a && b && c && d && e && f) := by
  revert a b c d e f g
  decide

/-- An eight-fold conjunction whose extra factor `st` is implied by the last
factor `r` collapses to the seven-fold form with `r` in front. -/
theorem bool_ready_absorb (a b c d e st f r : Bool)
    (h : r = true → st = true) :
    (a && b && c && d && e && st && f && r) =
      (r && a && b && c && d && e && f) := by
  cases r
  · simp
  · simp [h rfl]

/-- In the simple variant, if arbitration leaves the system running then the
any-alarm flag it consulted was false. -/
theorem simp_running_imp_no_alarm (s : Simp.State) (i : Simp.Inputs)
    (h : (Simp.handle_start_stop s i).systemRunning = true) :
    s.almAnyAlarm = false := by
  cases hA : s.almAnyAlarm
  · rfl
  · exfalso
    simp only [Simp.handle_start_stop, hA] at h
    cases hr : s.systemRunning <;> simp [hr] at h

/-- In the simple variant, a false any-alarm after `check_alarms` forces the
steam-pressure sensor to be good. -/
theorem simp_no_alarm_imp_steam (s : Simp.State) (i : Simp.Inputs)
    (h : (Simp.check_alarms s i).almAnyAlarm = false) :
    i.steamPressureOk = true := by
  simp only [Simp.check_alarms] at h
  simp only [Bool.or_eq_false_iff] at h
  simpa using h.1.2

/-- In the Modbus variant, if arbitration leaves the system running then the
any-alarm flag it consulted was false. -/
theorem realc_running_imp_no_alarm (s : RealC.State) (t : ℚ)
    (h : (RealC.handle_start_stop_logic s t).sysRunning = true) :
    s.almAnyAlarm = false := by
  cases hA : s.almAnyAlarm
  · rfl
  · exfalso
    simp only [RealC.handle_start_stop_logic, hA] at h
    simp at h

/-- In the Modbus variant, a false any-alarm after `check_alarms` forces the
steam-pressure sensor to be good. -/
theorem realc_no_alarm_imp_steam (s : RealC.State)
    (h : (RealC.check_alarms s).almAnyAlarm = false) :
    s.sensors.steamPressureOk = true := by
  simp only [RealC.check_alarms] at h
  simp only [Bool.or_eq_false_iff] at h
  simpa using h.1.2

/-- Claim C1: in every scan cycle of every variant, if the vacuum-present
sensor reads false that cycle, the gas-valve output of that same cycle is
false, whatever the rest of the state (in particular the ready flag going
in): the override is applied after the primary `gasValve = ready`
assignment. -/
theorem spec_c1_vacuum_override :
    (∀ (s : Ctrl.State) (i : Ctrl.Inputs), i.xVakuum = false →
      (Ctrl.scan_cycle s i).yKlapanGaz = false) ∧
    (∀ (s : Simp.State) (i : Simp.Inputs), i.vacuumPresent = false →
      (Simp.scan_cycle s i).gasValve = false) ∧
    (∀ (s : Fatek.State) (i : Fatek.Inputs), i.diVacuumSensor = false →
      (Fatek.scan_cycle s i).doGasValve = false) ∧
    (∀ (s : RealC.State) (sens : RealC.Sensors) (c : RealC.Commands) (t : ℚ),
      sens.vacuumPresent = false →
      (RealC.scan_logic s sens c t).outGasValve = false) := by
  refine ⟨?_, ?_, ?_, ?_⟩
  · intro s i h
    obtain ⟨a1, a2, a3, a4, xg, xv, xt, xa, c1, c2, c3, c4⟩ := i
    replace h : xv = false := h
    subst h
    rfl
  · intro s i h
    obtain ⟨v, bt, wt, g, vac, o, st, e, c1, c2, c3, c4⟩ := i
    replace h : vac = false := h
    subst h
    rfl
  · intro s i h
    obtain ⟨a1, a2, a3, a4, a5, a6, a7, dg, dv, d3, d4, d5, d6, m1, m2,
      m3, m4, m5⟩ := i
    replace h : dv = false := h
    subst h
    rfl
  · intro s sens c t h
    obtain ⟨v, bt, wt, t1, t2, op, sp, g, vac, o, st, e, m⟩ := sens
    replace h : vac = false := h
    subst h
    rfl

/-- Witness for C1: the override at a concrete state and input. -/
theorem spec_c1_vacuum_override_witness :
    (Ctrl.scan_cycle Ctrl.initState
      { Ctrl.goodInp with xVakuum := false }).yKlapanGaz = false :=
  spec_c1_vacuum_override.1 Ctrl.initState
    { Ctrl.goodInp with xVakuum := false } rfl

/-- Claim C2 (refuted; the code is the slip): in the FATEK emulator a cycle
that evaluates `anyAlarm` as true can still end with `running` true, because
the startup-delay branch consumes the elapsed timer without rechecking
`SYS_Enabled` or the alarm.  Start pulse in cycle 0, healthy sensors for
cycles 1–29, gas lost in cycle 30: that cycle raises the alarm, block 7
clears both run flags, and then the elapsed 3 s timer sets `SYS_Running`
back to true. -/
theorem spec_c2_fatek_alarm_cycle_sets_running :
    (Fatek.run Fatek.c2seq 30).sysRunning = false ∧
    (Fatek.run Fatek.c2seq 30).sysEnabled = true ∧
    (Fatek.run Fatek.c2seq 30).almAnyAlarm = false ∧
    (Fatek.run Fatek.c2seq 31).almAnyAlarm = true ∧
    (Fatek.run Fatek.c2seq 31).sysRunning = true ∧
    (Fatek.run Fatek.c2seq 31).cntStarts = 1 := by
  decide

/-- Claim C5 (refuted; the code is the slip): in the FATEK emulator a rising
edge of `anyAlarm` while running does force `running` false in the same
cycle, but the stop counter is not incremented: block 7 has already cleared
`SYS_Running` when the block-13 statistics test reads it.  Start pulse in
cycle 0, the 3 s delay elapses, the system runs from cycle 30, gas is lost
in cycle 31. -/
theorem spec_c5_fatek_stop_counter_not_incremented :
    (Fatek.run Fatek.c5seq 31).sysRunning = true ∧
    (Fatek.run Fatek.c5seq 31).almAnyAlarm = false ∧
    (Fatek.run Fatek.c5seq 32).almAnyAlarm = true ∧
    (Fatek.run Fatek.c5seq 32).sysRunning = false ∧
    (Fatek.run Fatek.c5seq 32).cntStops = 0 := by
  decide

/-- Claim C6 (refuted; the code is the slip): in the FATEK emulator the
stored previous stop-command value `FF_StopOld` is overwritten by block 7
*before* the block-13 statistics comparison reads it, so that comparison
observes the already-updated shadow instead of the pre-cycle snapshot: on a
genuine stop rising edge it evaluates false although the pre-cycle snapshot
would make it true. -/
theorem spec_c6_fatek_stop_shadow_overwritten :
    (Fatek.stopInp.cmdSystemStop &&
      !(Fatek.run Fatek.c5seq 31).ffStopOld) = true ∧
    (Fatek.blocks8to12
      (Fatek.block7
        (Fatek.blocks1to6 (Fatek.run Fatek.c5seq 31) Fatek.stopInp)
        Fatek.stopInp)
      Fatek.stopInp).ffStopOld ≠ (Fatek.run Fatek.c5seq 31).ffStopOld ∧
    (Fatek.stopInp.cmdSystemStop &&
      !(Fatek.blocks8to12
        (Fatek.block7
          (Fatek.blocks1to6 (Fatek.run Fatek.c5seq 31) Fatek.stopInp)
          Fatek.stopInp)
        Fatek.stopInp).ffStopOld) = false := by
  decide

/-- Claim C3: in every variant, the voltage-high flag after a cycle is true
whenever the cycle's voltage value is ≥ 400, false whenever it is < 380, and
keeps its prior-cycle value in the dead band [380, 400); it starts false at
initialisation.  For the Modbus variant the property is stated on its
`check_alarms` step, whose voltage value is the filtered reading of the
cycle. -/
theorem spec_c3_voltage_hysteresis :
    (∀ (s : Ctrl.State) (i : Ctrl.Inputs),
      (Ctrl.scan_cycle s i).mAvariaNapruga =
        (if i.aiNapruga * 500 / 4095 ≥ 400 then true
         else if i.aiNapruga * 500 / 4095 < 380 then false
         else s.mAvariaNapruga)) ∧
    Ctrl.initState.mAvariaNapruga = false ∧
    (∀ (s : Simp.State) (i : Simp.Inputs),
      (Simp.scan_cycle s i).almVoltageHigh =
        (if i.voltage ≥ 400 then true
         else if i.voltage < 380 then false
         else s.almVoltageHigh)) ∧
    Simp.initState.almVoltageHigh = false ∧
    (∀ (s : Fatek.State) (i : Fatek.Inputs),
      (Fatek.scan_cycle s i).almVoltageHigh =
        (if i.aiBoilerVoltage * 500 / 4095 ≥ 400 then true
         else if i.aiBoilerVoltage * 500 / 4095 < 380 then false
         else s.almVoltageHigh)) ∧
    Fatek.reset_all.almVoltageHigh = false ∧
    (∀ (s : RealC.State),
      (RealC.check_alarms s).almVoltageHigh =
        (if s.sensors.voltage ≥ 400 then true
         else if s.sensors.voltage < 380 then false
         else s.almVoltageHigh)) ∧
    RealC.initState.almVoltageHigh = false := by
  refine ⟨?_, rfl, ?_, rfl, ?_, rfl, ?_, rfl⟩
  · intro s i
    show cond (decide (i.aiNapruga * 500 / 4095 ≥ 400)) true
        (cond (decide (i.aiNapruga * 500 / 4095 < 380) && s.mAvariaNapruga)
          false s.mAvariaNapruga) = _
    by_cases h4 : i.aiNapruga * 500 / 4095 ≥ 400 <;>
      by_cases h3 : i.aiNapruga * 500 / 4095 < 380 <;>
      cases hb : s.mAvariaNapruga <;>
      simp [h4, h3, hb]
  · intro s i
    show cond (decide (i.voltage ≥ 400)) true
        (cond (decide (i.voltage < 380)) false s.almVoltageHigh) = _
    by_cases h4 : i.voltage ≥ 400 <;>
      by_cases h3 : i.voltage < 380 <;>
      simp [h4, h3]
  · intro s i
    show cond (decide (i.aiBoilerVoltage * 500 / 4095 ≥ 400)) true
        (cond (decide (i.aiBoilerVoltage * 500 / 4095 < 380)) false
          s.almVoltageHigh) = _
    by_cases h4 : i.aiBoilerVoltage * 500 / 4095 ≥ 400 <;>
      by_cases h3 : i.aiBoilerVoltage * 500 / 4095 < 380 <;>
      simp [h4, h3]
  · intro s
    show cond (decide (s.sensors.voltage ≥ 400)) true
        (cond (decide (s.sensors.voltage < 380)) false s.almVoltageHigh) = _
    by_cases h4 : s.sensors.voltage ≥ 400 <;>
      by_cases h3 : s.sensors.voltage < 380 <;>
      simp [h4, h3]

/-- Claim C8: in every variant and every cycle, each socket output equals
the corresponding socket command AND NOT the cycle's any-alarm, so both
sockets are forced off in any alarm cycle regardless of the commands, with
no memory beyond the command input. -/
theorem spec_c8_sockets_follow_commands_unless_alarm :
    (∀ (s : Ctrl.State) (i : Ctrl.Inputs),
      (Ctrl.scan_cycle s i).yRozet1 =
        (i.cmdRozet1 && !(Ctrl.scan_cycle s i).mZagalnaAvaria) ∧
      (Ctrl.scan_cycle s i).yRozet2 =
        (i.cmdRozet2 && !(Ctrl.scan_cycle s i).mZagalnaAvaria)) ∧
    (∀ (s : Simp.State) (i : Simp.Inputs),
      (Simp.scan_cycle s i).socket1 =
        (i.cmdSocket1 && !(Simp.scan_cycle s i).almAnyAlarm) ∧
      (Simp.scan_cycle s i).socket2 =
        (i.cmdSocket2 && !(Simp.scan_cycle s i).almAnyAlarm)) ∧
    (∀ (s : Fatek.State) (i : Fatek.Inputs),
      (Fatek.scan_cycle s i).doSocket1 =
        (i.cmdSocket1On && !(Fatek.scan_cycle s i).almAnyAlarm) ∧
      (Fatek.scan_cycle s i).doSocket2 =
        (i.cmdSocket2On && !(Fatek.scan_cycle s i).almAnyAlarm)) ∧
    (∀ (s : RealC.State) (sens : RealC.Sensors) (c : RealC.Commands) (t : ℚ),
      (RealC.scan_logic s sens c t).outSocket1 =
        (c.socket1 && !(RealC.scan_logic s sens c t).almAnyAlarm) ∧
      (RealC.scan_logic s sens c t).outSocket2 =
        (c.socket2 && !(RealC.scan_logic s sens c t).almAnyAlarm)) :=
  ⟨fun _ _ => ⟨rfl, rfl⟩, fun _ _ => ⟨rfl, rfl⟩,
   fun _ _ => ⟨rfl, rfl⟩, fun _ _ _ _ => ⟨rfl, rfl⟩⟩

/-- Claim C7: in each variant the claim cites, the ready flag after the
readiness-derivation step equals `running AND NOT voltageHigh AND NOT
tempHigh AND gasPresent AND vacuumPresent AND oilPressureOk AND NOT
emergency`, recomputed fresh from the cycle's values.  (The simple and
Modbus variants also conjoin `steamPressureOk` in their source text, but an
alarm cycle always clears `running`, so that extra factor is absorbed and
the seven-term formula is exact.) -/
theorem spec_c7_ready_formula :
    (∀ (s : Ctrl.State) (i : Ctrl.Inputs),
      (Ctrl.scan_cycle s i).mSystemReady =
        ((Ctrl.scan_cycle s i).mSystemOn &&
          !(Ctrl.scan_cycle s i).mAvariaNapruga &&
          !(Ctrl.scan_cycle s i).mAvariaTemp &&
          i.xGaz && i.xVakuum && i.xTiskMaslaDI && !i.xAvariaExt)) ∧
    (∀ (s : Simp.State) (i : Simp.Inputs),
      (Simp.scan_cycle s i).systemReady =
        ((Simp.scan_cycle s i).systemRunning &&
          !(Simp.scan_cycle s i).almVoltageHigh &&
          !(Simp.scan_cycle s i).almTempHigh &&
          i.gasPresent && i.vacuumPresent && i.oilPressureOk &&
          !i.emergencyStop)) ∧
    (∀ (s : RealC.State) (sens : RealC.Sensors) (c : RealC.Commands) (t : ℚ),
      (RealC.scan_logic s sens c t).sysReady =
        ((RealC.scan_logic s sens c t).sysRunning &&
          !(RealC.scan_logic s sens c t).almVoltageHigh &&
          !(RealC.scan_logic s sens c t).almTempHigh &&
          sens.gasPresent && sens.vacuumPresent && sens.oilPressureOk &&
          !sens.emergencyStop)) := by
  refine ⟨?_, ?_, ?_⟩
  · intro s i
    exact bool_shift7 _ _ _ _ _ _ _
  · intro s i
    exact bool_ready_absorb _ _ _ _ _ _ _ _
      (fun hr => simp_no_alarm_imp_steam s i
        (simp_running_imp_no_alarm (Simp.check_alarms s i) i hr))
  · intro s sens c t
    exact bool_ready_absorb _ _ _ _ _ _ _ _
      (fun hr => realc_no_alarm_imp_steam
        (RealC.apply_filters { s with sensors := sens, commands := c })
        (realc_running_imp_no_alarm
          (RealC.check_alarms
            (RealC.apply_filters { s with sensors := sens, commands := c }))
          t hr))

/-- Claim C4 (counterexample): in `Controller.py` the start command is
level-triggered, not edge-triggered.  Holding start continuously true while
a stop is pressed in cycle 1 yields a second start in cycle 2 even though
the command was already true in the previous cycle — two starts from one
continuous hold. -/
theorem spec_c4_ctrl_level_triggered_cex :
    (Ctrl.heldStartSeq 0).cmdStart = true ∧
    (Ctrl.heldStartSeq 1).cmdStart = true ∧
    (Ctrl.heldStartSeq 2).cmdStart = true ∧
    (Ctrl.run Ctrl.heldStartSeq 1).mSystemOn = true ∧
    (Ctrl.run Ctrl.heldStartSeq 2).mSystemOn = false ∧
    (Ctrl.run Ctrl.heldStartSeq 3).mSystemOn = true ∧
    (Ctrl.run Ctrl.heldStartSeq 3).statsStarts = 2 := by
  decide

/-- Claim C4 as amended: the start trigger is edge-triggered (rising edge of
the command with not-running and no-alarm required at that instant) in the
FATEK-emulator, simple and Modbus variants, but level-triggered in
`Controller.py`, where — given the system is off — the start fires exactly
when the command is held with no alarm and no stop command, regardless of
the command's previous value. -/
theorem spec_c4_start_edge_amended :
    (∀ (s : Fatek.State) (i : Fatek.Inputs),
      s.sysEnabled = false → (Fatek.block7 s i).sysEnabled = true →
      i.cmdSystemStart = true ∧ s.ffStartOld = false ∧
      s.sysRunning = false ∧ s.almAnyAlarm = false) ∧
    (∀ (s : Simp.State) (i : Simp.Inputs),
      s.systemRunning = false →
      (Simp.handle_start_stop s i).systemRunning = true →
      i.cmdStart = true ∧ s.startOld = false ∧ s.almAnyAlarm = false) ∧
    (∀ (s : RealC.State) (t : ℚ),
      s.sysEnabled = false →
      (RealC.handle_start_stop_logic s t).sysEnabled = true →
      s.commands.start = true ∧ s.edgeStartOld = false ∧
      s.sysRunning = false ∧ s.almAnyAlarm = false) ∧
    (∀ (s : Ctrl.State) (i : Ctrl.Inputs),
      s.mSystemOn = false →
      ((Ctrl.handle_start_stop s i).mSystemOn = true ↔
        (i.cmdStart = true ∧ s.mZagalnaAvaria = false ∧
          i.cmdStop = false))) := by
  refine ⟨?_, ?_, ?_, ?_⟩
  · intro s i h1 h2
    simp only [Fatek.block7] at h2
    cases hA : s.almAnyAlarm <;> cases hS : i.cmdSystemStart <;>
      cases hO : s.ffStartOld <;> cases hR : s.sysRunning <;>
      cases hT : i.cmdSystemStop <;> cases hTO : s.ffStopOld <;>
      simp_all
  · intro s i h1 h2
    simp only [Simp.handle_start_stop] at h2
    cases hA : s.almAnyAlarm <;> cases hS : i.cmdStart <;>
      cases hO : s.startOld <;> cases hT : i.cmdStop <;>
      simp_all
  · intro s t h1 h2
    simp only [RealC.handle_start_stop_logic] at h2
    cases hA : s.almAnyAlarm <;> cases hS : s.commands.start <;>
      cases hO : s.edgeStartOld <;> cases hR : s.sysRunning <;>
      cases hT : s.commands.stop <;> cases hTO : s.edgeStopOld <;>
      simp_all
  · intro s i h1
    simp only [Ctrl.handle_start_stop]
    cases hS : i.cmdStart <;> cases hZ : s.mZagalnaAvaria <;>
      cases hT : i.cmdStop <;> simp_all

/-- Witness for the amended C4: a start rising edge from the freshly reset
emulator with healthy inputs arms the system, and the theorem recovers the
edge and its guards there. -/
theorem spec_c4_start_edge_amended_witness :
    Fatek.startInp.cmdSystemStart = true ∧
    (Fatek.blocks1to6 Fatek.reset_all Fatek.startInp).ffStartOld = false ∧
    (Fatek.blocks1to6 Fatek.reset_all Fatek.startInp).sysRunning = false ∧
    (Fatek.blocks1to6 Fatek.reset_all Fatek.startInp).almAnyAlarm = false :=
  spec_c4_start_edge_amended.1 _ _ (by decide) (by decide)

/-- Claim C9 (counterexample): `Controller.py`'s `stop` only halts the scan
loop; it performs no final write of the outputs.  Stopping a running
controller whose gas valve is open leaves the valve (and the permit-run
output) energised. -/
theorem spec_c9_ctrl_stop_leaves_outputs_cex :
    (Ctrl.stop
      { Ctrl.scan_cycle Ctrl.initState { Ctrl.goodInp with cmdStart := true }
        with runningLoop := true }).yKlapanGaz = true ∧
    (Ctrl.stop
      { Ctrl.scan_cycle Ctrl.initState { Ctrl.goodInp with cmdStart := true }
        with runningLoop := true }).yDozvRoboty = true := by
  decide

/-- Claim C9 as amended: the simple and Modbus variants' `stop`, invoked on
an active controller, drive every actuator output to its off state before
returning; `Controller.py`'s `stop` does not. -/
theorem spec_c9_stop_safe_outputs_amended :
    (∀ s : Simp.State, s.runningLoop = true →
      (Simp.stop s).gasValve = false ∧ (Simp.stop s).socket1 = false ∧
      (Simp.stop s).socket2 = false ∧ (Simp.stop s).waterPump = false ∧
      (Simp.stop s).oilPump = false ∧ (Simp.stop s).alarmLight = false) ∧
    (∀ s : RealC.State, s.runningLoop = true →
      (RealC.stop s).outGasValve = false ∧
      (RealC.stop s).outSocket1 = false ∧
      (RealC.stop s).outSocket2 = false ∧
      (RealC.stop s).outWaterPump = false ∧
      (RealC.stop s).outOilPump = false ∧
      (RealC.stop s).outAlarmLight = false ∧
      (RealC.stop s).outPermitRun = false ∧
      (RealC.stop s).outFanVent = false) := by
  constructor
  · intro s h
    simp [Simp.stop, h]
  · intro s h
    simp [RealC.stop, h]

/-- Witness for the amended C9: stopping an active simple controller with an
open valve closes it. -/
theorem spec_c9_stop_safe_outputs_amended_witness :
    (Simp.stop
      { Simp.initState with runningLoop := true, gasValve := true }).gasValve
      = false :=
  (spec_c9_stop_safe_outputs_amended.1
    { Simp.initState with runningLoop := true, gasValve := true } rfl).1

/-- Claim C10: in `Controller.py`'s scan cycle the gas sensor does not feed
the general alarm: two cycles from the same state whose inputs differ only
in the gas reading produce identical general-alarm, running, socket and
alarm-signal values (indeed identical everything except the gas latch,
readiness, gas valve, permit-run and the gas-failure counter). -/
theorem spec_c10_gas_noninterference :
    ∀ (s : Ctrl.State) (i : Ctrl.Inputs) (g₁ g₂ : Bool),
      (Ctrl.scan_cycle s { i with xGaz := g₁ }).mZagalnaAvaria =
        (Ctrl.scan_cycle s { i with xGaz := g₂ }).mZagalnaAvaria ∧
      (Ctrl.scan_cycle s { i with xGaz := g₁ }).mSystemOn =
        (Ctrl.scan_cycle s { i with xGaz := g₂ }).mSystemOn ∧
      (Ctrl.scan_cycle s { i with xGaz := g₁ }).yRozet1 =
        (Ctrl.scan_cycle s { i with xGaz := g₂ }).yRozet1 ∧
      (Ctrl.scan_cycle s { i with xGaz := g₁ }).yRozet2 =
        (Ctrl.scan_cycle s { i with xGaz := g₂ }).yRozet2 ∧
      (Ctrl.scan_cycle s { i with xGaz := g₁ }).yAvariaSignal =
        (Ctrl.scan_cycle s { i with xGaz := g₂ }).yAvariaSignal ∧
      (Ctrl.scan_cycle s { i with xGaz := g₁ }).mAvariaNapruga =
        (Ctrl.scan_cycle s { i with xGaz := g₂ }).mAvariaNapruga ∧
      (Ctrl.scan_cycle s { i with xGaz := g₁ }).mAvariaTemp =
        (Ctrl.scan_cycle s { i with xGaz := g₂ }).mAvariaTemp ∧
      (Ctrl.scan_cycle s { i with xGaz := g₁ }).mVakuumIe =
        (Ctrl.scan_cycle s { i with xGaz := g₂ }).mVakuumIe ∧
      (Ctrl.scan_cycle s { i with xGaz := g₁ }).mTiskNorma =
        (Ctrl.scan_cycle s { i with xGaz := g₂ }).mTiskNorma ∧
      (Ctrl.scan_cycle s { i with xGaz := g₁ }).mAvariaVakuum =
        (Ctrl.scan_cycle s { i with xGaz := g₂ }).mAvariaVakuum ∧
      (Ctrl.scan_cycle s { i with xGaz := g₁ }).statsStarts =
        (Ctrl.scan_cycle s { i with xGaz := g₂ }).statsStarts ∧
      (Ctrl.scan_cycle s { i with xGaz := g₁ }).statsStops =
        (Ctrl.scan_cycle s { i with xGaz := g₂ }).statsStops ∧
      (Ctrl.scan_cycle s { i with xGaz := g₁ }).statsAlarms =
        (Ctrl.scan_cycle s { i with xGaz := g₂ }).statsAlarms ∧
      (Ctrl.scan_cycle s { i with xGaz := g₁ }).statsVakuumOff =
        (Ctrl.scan_cycle s { i with xGaz := g₂ }).statsVakuumOff :=
  fun _ _ _ _ =>
    ⟨rfl, rfl, rfl, rfl, rfl, rfl, rfl, rfl, rfl, rfl, rfl, rfl, rfl, rfl⟩
